import Mathlib

/-!
Shallow embedding of the Bravo deck state machine (`src/pybravo/state.py`).

Modelling conventions:
* timestamps produced by `datetime.now()` are modelled as natural-number
  clock values supplied by the caller of each mutating entry point; only
  their presence (`Option Nat`) matters to the properties proved below;
* Python `float` volume arithmetic is modelled with exact rationals;
* `Dict[str, Any]` payloads (`operation_details`, `custom_properties`)
  are modelled as association lists of strings;
* the `nests` dictionary, whose keys `1..num_nests` are inserted in
  ascending order at construction and never deleted, is modelled as a
  list in insertion order (`values()` iteration order);
* each mutating `BravoDeckState` method returns its boolean result
  paired with the updated state.
-/

/-- Enumeration of possible operation statuses. -/
inductive OperationStatus where
  | idle
  | aspirating
  | dispensing
  | mixing
  | washing
  | moving
  | picking
  | placing
  | pumping
  | error
deriving DecidableEq

/-- The Python enum value string of an `OperationStatus`. -/
def OperationStatus.value : OperationStatus → String
  | .idle => "idle"
  | .aspirating => "aspirating"
  | .dispensing => "dispensing"
  | .mixing => "mixing"
  | .washing => "washing"
  | .moving => "moving"
  | .picking => "picking"
  | .placing => "placing"
  | .pumping => "pumping"
  | .error => "error"

/-- `OperationStatus(s)`: enum lookup by value string; `none` models the
`ValueError` raised on an unknown value. -/
def OperationStatus.ofValue (s : String) : Option OperationStatus :=
  if s = "idle" then some .idle
  else if s = "aspirating" then some .aspirating
  else if s = "dispensing" then some .dispensing
  else if s = "mixing" then some .mixing
  else if s = "washing" then some .washing
  else if s = "moving" then some .moving
  else if s = "picking" then some .picking
  else if s = "placing" then some .placing
  else if s = "pumping" then some .pumping
  else if s = "error" then some .error
  else none

/-- Enumeration of common labware types. -/
inductive LabwareType where
  | microplate_96
  | microplate_384
  | deepwell_96
  | reservoir
  | tip_rack
  | empty
  | unknown
deriving DecidableEq

/-- The Python enum value string of a `LabwareType`. -/
def LabwareType.value : LabwareType → String
  | .microplate_96 => "microplate_96"
  | .microplate_384 => "microplate_384"
  | .deepwell_96 => "deepwell_96"
  | .reservoir => "reservoir"
  | .tip_rack => "tip_rack"
  | .empty => "empty"
  | .unknown => "unknown"

/-- `LabwareType(s)`: enum lookup by value string; `none` models the
`ValueError` raised on an unknown value. -/
def LabwareType.ofValue (s : String) : Option LabwareType :=
  if s = "microplate_96" then some .microplate_96
  else if s = "microplate_384" then some .microplate_384
  else if s = "deepwell_96" then some .deepwell_96
  else if s = "reservoir" then some .reservoir
  else if s = "tip_rack" then some .tip_rack
  else if s = "empty" then some .empty
  else if s = "unknown" then some .unknown
  else none

/-- `str.lower()`, modelled as a structural map over the character
list.  (Lean's `String.toLower` is extensionally the same map but is
defined by well-founded recursion on byte positions, which blocks
kernel evaluation.) -/
def pyLower (s : String) : String := String.mk (s.data.map Char.toLower)

/-- `Dict[str, Any]` payloads, modelled as association lists of strings. -/
abbrev Dict := List (String × String)

/-- `d[k] = v`: overwrite the binding for `k`, or append it. -/
def Dict.setKey (d : Dict) (k v : String) : Dict :=
  match d with
  | [] => [(k, v)]
  | (k1, v1) :: rest => if k1 = k then (k, v) :: rest else (k1, v1) :: Dict.setKey rest k v

/-- Information about volume operations. -/
structure VolumeInfo where
  current_volume : ℚ
  aspirated_volume : ℚ
  dispensed_volume : ℚ
  last_operation_volume : ℚ
  total_aspirated : ℚ
  total_dispensed : ℚ
deriving DecidableEq

/-- The dataclass defaults; `VolumeInfo.reset` re-runs `__init__`. -/
def VolumeInfo.init : VolumeInfo := ⟨0, 0, 0, 0, 0, 0⟩

/-- Information about tip status. -/
structure TipInfo where
  tips_loaded : Bool
  tip_type : Option String
  tip_volume : Option ℚ
  tip_count : Int
  last_tip_operation : Option String
deriving DecidableEq

/-- The dataclass defaults; `TipInfo.reset` re-runs `__init__`. -/
def TipInfo.init : TipInfo := ⟨false, none, none, 0, none⟩

/-- Information about the current operation. -/
structure OperationInfo where
  status : OperationStatus
  operation_details : Dict
  start_time : Option Nat
  estimated_duration : Option ℚ
  progress : ℚ
deriving DecidableEq

/-- The dataclass defaults. -/
def OperationInfo.init : OperationInfo := ⟨.idle, [], none, none, 0⟩

/-- `OperationInfo.start_operation`: `details or {}` maps a missing (or
empty, which Python treats the same) dictionary to `{}`. -/
def OperationInfo.start_operation (o : OperationInfo) (status : OperationStatus)
    (details : Option Dict) (now : Nat) : OperationInfo :=
  { o with
    status := status
    operation_details := details.getD []
    start_time := some now
    progress := 0 }

/-- `OperationInfo.complete_operation`. -/
def OperationInfo.complete_operation (o : OperationInfo) : OperationInfo :=
  { o with
    status := .idle
    operation_details := []
    start_time := none
    progress := 100 }

/-- `OperationInfo.update_progress`: clamps into `[0, 100]`. -/
def OperationInfo.update_progress (o : OperationInfo) (p : ℚ) : OperationInfo :=
  { o with progress := max 0 (min 100 p) }

/-- A single nest position on the Bravo deck. -/
structure Nest where
  nest_id : Int
  labware_type : LabwareType
  labware_name : Option String
  volume_info : VolumeInfo
  tip_info : TipInfo
  operation_info : OperationInfo
  custom_properties : Dict
  last_accessed : Option Nat
deriving DecidableEq

/-- `Nest(nest_id=i)` with the dataclass defaults. -/
def Nest.init (id : Int) : Nest :=
  ⟨id, .empty, none, VolumeInfo.init, TipInfo.init, OperationInfo.init, [], none⟩

/-- `Nest.set_labware`. -/
def Nest.set_labware (n : Nest) (labware_type : LabwareType)
    (labware_name : Option String) (now : Nat) : Nest :=
  { n with
    labware_type := labware_type
    labware_name := labware_name
    last_accessed := some now }

/-- `Nest.start_operation`. -/
def Nest.start_operation (n : Nest) (operation : OperationStatus)
    (details : Option Dict) (now : Nat) : Nest :=
  { n with
    operation_info := n.operation_info.start_operation operation details now
    last_accessed := some now }

/-- `Nest.complete_operation`. -/
def Nest.complete_operation (n : Nest) (now : Nat) : Nest :=
  { n with
    operation_info := n.operation_info.complete_operation
    last_accessed := some now }

/-- `Nest.update_volume`. -/
def Nest.update_volume (n : Nest) (aspirated dispensed : ℚ) (now : Nat) : Nest :=
  { n with
    volume_info :=
      { aspirated_volume := n.volume_info.aspirated_volume + aspirated
        dispensed_volume := n.volume_info.dispensed_volume + dispensed
        total_aspirated := n.volume_info.total_aspirated + aspirated
        total_dispensed := n.volume_info.total_dispensed + dispensed
        current_volume := n.volume_info.current_volume + (aspirated - dispensed)
        last_operation_volume := max aspirated dispensed }
    last_accessed := some now }

/-- `Nest.update_tips`: `if tip_type:` is Python truthiness, so `None`
and the empty string both leave the stored `tip_type` alone; likewise
`if tip_count > 0`. -/
def Nest.update_tips (n : Nest) (tips_on : Bool) (tip_type : Option String)
    (tip_count : Int) (now : Nat) : Nest :=
  { n with
    tip_info :=
      { n.tip_info with
        tips_loaded := tips_on
        tip_type :=
          match tip_type with
          | some t => if t = "" then n.tip_info.tip_type else some t
          | none => n.tip_info.tip_type
        tip_count := if tip_count > 0 then tip_count else n.tip_info.tip_count
        last_tip_operation := some (if tips_on then "tips_on" else "tips_off") }
    last_accessed := some now }

/-- `Nest.reset_nest`: fresh volume and tip info, `complete_operation`
on the operation info, cleared custom properties. -/
def Nest.reset_nest (n : Nest) (now : Nat) : Nest :=
  { n with
    labware_type := .empty
    labware_name := none
    volume_info := VolumeInfo.init
    tip_info := TipInfo.init
    operation_info := n.operation_info.complete_operation
    custom_properties := []
    last_accessed := some now }

/-- The per-nest summary dictionary built by `Nest.get_summary`. -/
structure NestSummary where
  nest_id : Int
  labware_type : String
  labware_name : Option String
  operation_status : String
  current_volume : ℚ
  tips_loaded : Bool
  last_accessed : Option Nat
deriving DecidableEq

/-- `Nest.get_summary`. -/
def Nest.get_summary (n : Nest) : NestSummary :=
  ⟨n.nest_id, n.labware_type.value, n.labware_name, n.operation_info.status.value,
    n.volume_info.current_volume, n.tip_info.tips_loaded, n.last_accessed⟩

/-- State machine for tracking the entire Bravo deck state.  The lock is
not modelled: every entry point is atomic here by construction. -/
structure BravoDeckState where
  num_nests : Nat
  nests : List Nest
  global_operation_count : Nat
  error_count : Nat
  last_error : Option String
  initialization_time : Nat
deriving DecidableEq

/-- `BravoDeckState(num_nests)`: nests `1..num_nests` created eagerly,
in ascending key order. -/
def BravoDeckState.init (num_nests : Nat) (now : Nat) : BravoDeckState :=
  ⟨num_nests, (List.range num_nests).map (fun i => Nest.init (Int.ofNat i + 1)), 0, 0, none, now⟩

/-- `BravoDeckState.get_nest`: range check, then dictionary lookup. -/
def BravoDeckState.get_nest (s : BravoDeckState) (nest_id : Int) : Option Nest :=
  if 1 ≤ nest_id ∧ nest_id ≤ (s.num_nests : Int) then
    s.nests.find? (fun n => n.nest_id == nest_id)
  else none

/-- In-place mutation of the dictionary entry with key `nest_id`,
modelled as a pointwise map over the value list. -/
def modifyNest (nests : List Nest) (nest_id : Int) (f : Nest → Nest) : List Nest :=
  nests.map (fun n => if n.nest_id = nest_id then f n else n)

/-- `BravoDeckState.set_labware_at_nest`: unknown labels degrade to
`LabwareType.unknown` with a logged warning. -/
def BravoDeckState.set_labware_at_nest (s : BravoDeckState) (nest_id : Int)
    (labware_type : String) (labware_name : Option String) (now : Nat) :
    Bool × BravoDeckState :=
  match s.get_nest nest_id with
  | some _ =>
      let labware_enum := (LabwareType.ofValue (pyLower labware_type)).getD .unknown
      (true,
        { s with
          nests := modifyNest s.nests nest_id
            (fun n => n.set_labware labware_enum labware_name now) })
  | none => (false, s)

/-- `BravoDeckState.start_operation_at_nest`: unknown operation labels
are logged and rejected with `false` before any mutation. -/
def BravoDeckState.start_operation_at_nest (s : BravoDeckState) (nest_id : Int)
    (operation : String) (details : Option Dict) (now : Nat) :
    Bool × BravoDeckState :=
  match s.get_nest nest_id with
  | some _ =>
      match OperationStatus.ofValue (pyLower operation) with
      | some operation_enum =>
          (true,
            { s with
              nests := modifyNest s.nests nest_id
                (fun n => n.start_operation operation_enum (some (details.getD [])) now)
              global_operation_count := s.global_operation_count + 1 })
      | none => (false, s)
  | none => (false, s)

/-- `BravoDeckState.complete_operation_at_nest`. -/
def BravoDeckState.complete_operation_at_nest (s : BravoDeckState) (nest_id : Int)
    (now : Nat) : Bool × BravoDeckState :=
  match s.get_nest nest_id with
  | some _ =>
      (true, { s with nests := modifyNest s.nests nest_id (fun n => n.complete_operation now) })
  | none => (false, s)

/-- `BravoDeckState.update_volume_at_nest`. -/
def BravoDeckState.update_volume_at_nest (s : BravoDeckState) (nest_id : Int)
    (aspirated dispensed : ℚ) (now : Nat) : Bool × BravoDeckState :=
  match s.get_nest nest_id with
  | some _ =>
      (true,
        { s with
          nests := modifyNest s.nests nest_id (fun n => n.update_volume aspirated dispensed now) })
  | none => (false, s)

/-- `BravoDeckState.update_tips_at_nest`: `tip_count` is left at its
default `0` by this entry point. -/
def BravoDeckState.update_tips_at_nest (s : BravoDeckState) (nest_id : Int)
    (tips_on : Bool) (tip_type : Option String) (now : Nat) : Bool × BravoDeckState :=
  match s.get_nest nest_id with
  | some _ =>
      (true,
        { s with
          nests := modifyNest s.nests nest_id (fun n => n.update_tips tips_on tip_type 0 now) })
  | none => (false, s)

/-- One record of the `get_active_operations` snapshot. -/
structure ActiveOperationRecord where
  nest_id : Int
  operation : String
  details : Dict
  progress : ℚ
  start_time : Option Nat
deriving DecidableEq

/-- `BravoDeckState.get_active_operations`: all nests with a non-idle
status, in `values()` iteration order. -/
def BravoDeckState.get_active_operations (s : BravoDeckState) :
    List ActiveOperationRecord :=
  s.nests.filterMap (fun n =>
    if n.operation_info.status ≠ OperationStatus.idle then
      some ⟨n.nest_id, n.operation_info.status.value, n.operation_info.operation_details,
        n.operation_info.progress, n.operation_info.start_time⟩
    else none)

/-- One record of the `get_nests_with_labware` snapshot. -/
structure LabwareNestRecord where
  nest_id : Int
  labware_type : String
  labware_name : Option String
deriving DecidableEq

/-- `BravoDeckState.get_nests_with_labware`. -/
def BravoDeckState.get_nests_with_labware (s : BravoDeckState) : List LabwareNestRecord :=
  s.nests.filterMap (fun n =>
    if n.labware_type ≠ LabwareType.empty then
      some ⟨n.nest_id, n.labware_type.value, n.labware_name⟩
    else none)

/-- `BravoDeckState.get_nests_with_tips`. -/
def BravoDeckState.get_nests_with_tips (s : BravoDeckState) : List Int :=
  (s.nests.filter (fun n => n.tip_info.tips_loaded)).map (fun n => n.nest_id)

/-- The `deck_info` block of the deck summary. -/
structure DeckInfo where
  num_nests : Nat
  initialization_time : Nat
  global_operation_count : Nat
  error_count : Nat
  last_error : Option String
deriving DecidableEq

/-- The dictionary built by `get_deck_summary`. -/
structure DeckSummary where
  deck_info : DeckInfo
  active_operations : Nat
  nests_with_labware : Nat
  nests_with_tips : Nat
  nests : List (Int × NestSummary)
deriving DecidableEq

/-- `BravoDeckState.get_deck_summary`. -/
def BravoDeckState.get_deck_summary (s : BravoDeckState) : DeckSummary :=
  ⟨⟨s.num_nests, s.initialization_time, s.global_operation_count, s.error_count, s.last_error⟩,
    s.get_active_operations.length,
    s.get_nests_with_labware.length,
    s.get_nests_with_tips.length,
    s.nests.map (fun n => (n.nest_id, n.get_summary))⟩

/-- `BravoDeckState.reset_all_nests`. -/
def BravoDeckState.reset_all_nests (s : BravoDeckState) (now : Nat) : BravoDeckState :=
  { s with
    nests := s.nests.map (fun n => n.reset_nest now)
    global_operation_count := 0
    error_count := 0
    last_error := none }

/-- `BravoDeckState.log_error`: always bumps `error_count` and
overwrites `last_error`; `if nest_id and self.get_nest(nest_id)` is
Python truthiness (`None` and `0` both skip the nest mutation), and the
nest mutation bypasses `start_operation` (no `start_time`, no
`last_accessed` update). -/
def BravoDeckState.log_error (s : BravoDeckState) (error_message : String)
    (nest_id : Option Int) : BravoDeckState :=
  let s1 := { s with error_count := s.error_count + 1, last_error := some error_message }
  match nest_id with
  | some nid =>
      if nid ≠ 0 ∧ (s1.get_nest nid).isSome then
        { s1 with
          nests := modifyNest s1.nests nid (fun n =>
            { n with
              operation_info :=
                { n.operation_info with
                  status := .error
                  operation_details :=
                    Dict.setKey n.operation_info.operation_details "error" error_message } }) }
      else s1
  | none => s1

/-- `BravoDeckState.find_empty_nests`. -/
def BravoDeckState.find_empty_nests (s : BravoDeckState) : List Int :=
  (s.nests.filter (fun n => n.labware_type = LabwareType.empty)).map (fun n => n.nest_id)

/-- `BravoDeckState.find_nests_by_labware_type`: unknown labels yield an
empty list, not an error. -/
def BravoDeckState.find_nests_by_labware_type (s : BravoDeckState) (labware_type : String) :
    List Int :=
  match LabwareType.ofValue (pyLower labware_type) with
  | some target_type =>
      (s.nests.filter (fun n => n.labware_type = target_type)).map (fun n => n.nest_id)
  | none => []

/-- The dictionary built by `export_state_to_dict`. -/
structure ExportedState where
  deck_state : DeckSummary
  timestamp : Nat
  version : String
deriving DecidableEq

/-- `BravoDeckState.export_state_to_dict`: a pure snapshot. -/
def BravoDeckState.export_state_to_dict (s : BravoDeckState) (now : Nat) : ExportedState :=
  ⟨s.get_deck_summary, now, "1.0"⟩

/-- One call to a public `BravoDeckState` entry point, with the clock
value observed by that call. -/
inductive DeckOp where
  | set_labware_at_nest (nest_id : Int) (labware_type : String)
      (labware_name : Option String) (now : Nat)
  | start_operation_at_nest (nest_id : Int) (operation : String)
      (details : Option Dict) (now : Nat)
  | complete_operation_at_nest (nest_id : Int) (now : Nat)
  | update_volume_at_nest (nest_id : Int) (aspirated dispensed : ℚ) (now : Nat)
  | update_tips_at_nest (nest_id : Int) (tips_on : Bool) (tip_type : Option String) (now : Nat)
  | reset_all_nests (now : Nat)
  | log_error (error_message : String) (nest_id : Option Int)
  | get_nest (nest_id : Int)
  | get_active_operations
  | get_nests_with_labware
  | get_nests_with_tips
  | get_deck_summary
  | find_empty_nests
  | find_nests_by_labware_type (labware_type : String)
  | export_state_to_dict (now : Nat)
deriving DecidableEq

/-- The state transition of one public call.  The query entry points
compute pure snapshots and leave the state untouched. -/
def DeckOp.apply (s : BravoDeckState) (op : DeckOp) : BravoDeckState :=
  match op with
  | .set_labware_at_nest nid lt nm now => (s.set_labware_at_nest nid lt nm now).2
  | .start_operation_at_nest nid operation d now => (s.start_operation_at_nest nid operation d now).2
  | .complete_operation_at_nest nid now => (s.complete_operation_at_nest nid now).2
  | .update_volume_at_nest nid a d now => (s.update_volume_at_nest nid a d now).2
  | .update_tips_at_nest nid t tt now => (s.update_tips_at_nest nid t tt now).2
  | .reset_all_nests now => s.reset_all_nests now
  | .log_error msg nid => s.log_error msg nid
  | .get_nest _ => s
  | .get_active_operations => s
  | .get_nests_with_labware => s
  | .get_nests_with_tips => s
  | .get_deck_summary => s
  | .find_empty_nests => s
  | .find_nests_by_labware_type _ => s
  | .export_state_to_dict _ => s

/-- Run a sequence of public calls. -/
def runOps (s : BravoDeckState) (ops : List DeckOp) : BravoDeckState :=
  ops.foldl DeckOp.apply s

/-! ### Helper lemmas -/

lemma find_modifyNest (nests : List Nest) (nest_id : Int) (f : Nest → Nest)
    (hf : ∀ n, (f n).nest_id = n.nest_id) :
    (modifyNest nests nest_id f).find? (fun n => n.nest_id == nest_id)
      = (nests.find? (fun n => n.nest_id == nest_id)).map f := by
  induction nests with
  | nil => simp [modifyNest]
  | cons head tail ih =>
    by_cases h : head.nest_id = nest_id
    · simp [modifyNest, List.find?, h, hf]
    · simp only [modifyNest, List.map_cons, if_neg h, List.find?]
      rw [show (head.nest_id == nest_id) = false by simp [h]]
      exact ih

lemma map_nest_id_modifyNest (nests : List Nest) (nest_id : Int) (f : Nest → Nest)
    (hf : ∀ n, (f n).nest_id = n.nest_id) :
    (modifyNest nests nest_id f).map (fun n => n.nest_id) = nests.map (fun n => n.nest_id) := by
  simp only [modifyNest, List.map_map]
  apply List.map_congr_left
  intro n _
  by_cases h : n.nest_id = nest_id <;> simp [h, hf]

/-! ### C3: volume accounting -/

/-- A sequence of `update_volume` calls, each with its aspirated delta,
dispensed delta and clock value. -/
def applyVolumeUpdates (n : Nest) (updates : List (ℚ × ℚ × Nat)) : Nest :=
  updates.foldl (fun m u => m.update_volume u.1 u.2.1 u.2.2) n

lemma applyVolumeUpdates_accum (updates : List (ℚ × ℚ × Nat)) :
    ∀ m : Nest,
      (applyVolumeUpdates m updates).volume_info.current_volume
        = m.volume_info.current_volume
          + ((updates.map (fun u => u.1)).sum - (updates.map (fun u => u.2.1)).sum) ∧
      (applyVolumeUpdates m updates).volume_info.total_aspirated
        = m.volume_info.total_aspirated + (updates.map (fun u => u.1)).sum ∧
      (applyVolumeUpdates m updates).volume_info.total_dispensed
        = m.volume_info.total_dispensed + (updates.map (fun u => u.2.1)).sum := by
  induction updates with
  | nil => intro m; simp [applyVolumeUpdates]
  | cons u rest ih =>
    intro m
    obtain ⟨h1, h2, h3⟩ := ih (m.update_volume u.1 u.2.1 u.2.2)
    have hc : applyVolumeUpdates m (u :: rest)
        = applyVolumeUpdates (m.update_volume u.1 u.2.1 u.2.2) rest := rfl
    rw [hc]
    refine ⟨?_, ?_, ?_⟩
    · rw [h1]; simp [Nest.update_volume]; ring
    · rw [h2]; simp [Nest.update_volume]; ring
    · rw [h3]; simp [Nest.update_volume]; ring

/-- C3: starting from a freshly reset nest, after any sequence of
`update_volume` calls `current_volume` equals the sum of aspirated
deltas minus the sum of dispensed deltas, and equals
`total_aspirated - total_dispensed`; no floor is applied, so a dispense
from an empty nest drives `current_volume` negative (witnessed by the
third conjunct). -/
theorem C3_volume_accounting (n : Nest) (now0 : Nat) (updates : List (ℚ × ℚ × Nat)) :
    (applyVolumeUpdates (n.reset_nest now0) updates).volume_info.current_volume
      = (updates.map (fun u => u.1)).sum - (updates.map (fun u => u.2.1)).sum ∧
    (applyVolumeUpdates (n.reset_nest now0) updates).volume_info.current_volume
      = (applyVolumeUpdates (n.reset_nest now0) updates).volume_info.total_aspirated
        - (applyVolumeUpdates (n.reset_nest now0) updates).volume_info.total_dispensed ∧
    (applyVolumeUpdates ((Nest.init 1).reset_nest 0) [(0, 5, 1)]).volume_info.current_volume
      = -5 := by
  obtain ⟨h1, h2, h3⟩ := applyVolumeUpdates_accum updates (n.reset_nest now0)
  refine ⟨?_, ?_, ?_⟩
  case refine_3 =>
    show ((((Nest.init 1).reset_nest 0).update_volume 0 5 1).volume_info).current_volume = -5
    simp [Nest.update_volume, Nest.reset_nest, VolumeInfo.init]
  · rw [h1]; simp [Nest.reset_nest, VolumeInfo.init]
  · rw [h1, h2, h3]; simp [Nest.reset_nest, VolumeInfo.init]

/-! ### C4: invalid nest ids are uniformly rejected without mutation -/

/-- C4: for any `nest_id` outside `[1, num_nests]`, `get_nest` returns
`none` and every mutating entry point returns `false` with the state
(counters, `last_error` and every nest included) completely unchanged. -/
theorem C4_invalid_nest_id (s : BravoDeckState) (nest_id : Int)
    (h : ¬ (1 ≤ nest_id ∧ nest_id ≤ (s.num_nests : Int))) :
    s.get_nest nest_id = none ∧
    (∀ lt nm now, s.set_labware_at_nest nest_id lt nm now = (false, s)) ∧
    (∀ operation d now, s.start_operation_at_nest nest_id operation d now = (false, s)) ∧
    (∀ now, s.complete_operation_at_nest nest_id now = (false, s)) ∧
    (∀ a d now, s.update_volume_at_nest nest_id a d now = (false, s)) ∧
    (∀ t tt now, s.update_tips_at_nest nest_id t tt now = (false, s)) := by
  have hnone : s.get_nest nest_id = none := by simp [BravoDeckState.get_nest, h]
  refine ⟨hnone, ?_, ?_, ?_, ?_, ?_⟩ <;> intros <;>
    simp [BravoDeckState.set_labware_at_nest, BravoDeckState.start_operation_at_nest,
      BravoDeckState.complete_operation_at_nest, BravoDeckState.update_volume_at_nest,
      BravoDeckState.update_tips_at_nest, hnone]

/-- Witness for C4 at the out-of-range ids `0` and `10` on a 9-nest deck. -/
theorem C4_invalid_nest_id_witness :
    (BravoDeckState.init 9 0).get_nest 0 = none ∧
    (BravoDeckState.init 9 0).set_labware_at_nest 0 "microplate_96" (some "X") 1
      = (false, BravoDeckState.init 9 0) ∧
    (BravoDeckState.init 9 0).start_operation_at_nest 0 "aspirating" none 1
      = (false, BravoDeckState.init 9 0) ∧
    (BravoDeckState.init 9 0).complete_operation_at_nest 0 1
      = (false, BravoDeckState.init 9 0) ∧
    (BravoDeckState.init 9 0).update_volume_at_nest 0 5 0 1
      = (false, BravoDeckState.init 9 0) ∧
    (BravoDeckState.init 9 0).update_tips_at_nest 0 true (some "p200") 1
      = (false, BravoDeckState.init 9 0) ∧
    (BravoDeckState.init 9 0).get_nest 10 = none ∧
    (BravoDeckState.init 9 0).get_nest (-3) = none := by
  have h0 := C4_invalid_nest_id (BravoDeckState.init 9 0) 0 (by decide)
  have h10 := C4_invalid_nest_id (BravoDeckState.init 9 0) 10 (by decide)
  have hneg := C4_invalid_nest_id (BravoDeckState.init 9 0) (-3) (by decide)
  exact ⟨h0.1, h0.2.1 "microplate_96" (some "X") 1, h0.2.2.1 "aspirating" none 1,
    h0.2.2.2.1 1, h0.2.2.2.2.1 5 0 1, h0.2.2.2.2.2 true (some "p200") 1, h10.1, hneg.1⟩

lemma get_nest_after_modify (s s2 : BravoDeckState) (nest_id : Int) (f : Nest → Nest)
    (hf : ∀ n, (f n).nest_id = n.nest_id)
    (hnum : s2.num_nests = s.num_nests)
    (hnests : s2.nests = modifyNest s.nests nest_id f) :
    s2.get_nest nest_id = (s.get_nest nest_id).map f := by
  unfold BravoDeckState.get_nest
  rw [hnum, hnests]
  by_cases hr : 1 ≤ nest_id ∧ nest_id ≤ (s.num_nests : Int)
  · simp only [hr, if_true]
    exact find_modifyNest s.nests nest_id f hf
  · simp [hr]

/-! ### C2: start_operation_at_nest parses, counts and mutates correctly -/

/-- C2: at a valid nest, a label whose lowercasing is not an
`OperationStatus` value makes `start_operation_at_nest` return `false`
with the state (count and nest included) unchanged; a label that is a
value makes it return `true`, bump `global_operation_count` by exactly
one, and install that status with the given details (fresh
`start_time`, progress `0`) while leaving labware, volume and tip state
of the nest alone. -/
theorem C2_start_operation_at_nest (s : BravoDeckState) (nest_id : Int) (operation : String)
    (details : Option Dict) (now : Nat) (nest : Nest)
    (hget : s.get_nest nest_id = some nest) :
    (OperationStatus.ofValue (pyLower operation) = none →
      s.start_operation_at_nest nest_id operation details now = (false, s)) ∧
    (∀ st, OperationStatus.ofValue (pyLower operation) = some st →
      (s.start_operation_at_nest nest_id operation details now).1 = true ∧
      (s.start_operation_at_nest nest_id operation details now).2.global_operation_count
        = s.global_operation_count + 1 ∧
      ∃ nest2,
        (s.start_operation_at_nest nest_id operation details now).2.get_nest nest_id
          = some nest2 ∧
        nest2.operation_info.status = st ∧
        nest2.operation_info.operation_details = details.getD [] ∧
        nest2.operation_info.start_time = some now ∧
        nest2.operation_info.progress = 0 ∧
        nest2.labware_type = nest.labware_type ∧
        nest2.volume_info = nest.volume_info ∧
        nest2.tip_info = nest.tip_info) := by
  constructor
  · intro hnone
    simp [BravoDeckState.start_operation_at_nest, hget, hnone]
  · intro st hst
    have h2 : s.start_operation_at_nest nest_id operation details now
        = (true,
            { s with
              nests := modifyNest s.nests nest_id
                (fun n => n.start_operation st (some (details.getD [])) now)
              global_operation_count := s.global_operation_count + 1 }) := by
      simp [BravoDeckState.start_operation_at_nest, hget, hst]
    rw [h2]
    refine ⟨rfl, rfl, nest.start_operation st (some (details.getD [])) now, ?_,
      rfl, rfl, rfl, rfl, rfl, rfl, rfl⟩
    dsimp only
    refine Eq.trans (get_nest_after_modify s _ nest_id
      (fun n => n.start_operation st (some (details.getD [])) now)
      (fun n => rfl) rfl rfl) ?_
    rw [hget]
    rfl

/-- Witness for C2 at nest 3 of a fresh 9-nest deck, with the known
label `"Aspirating"` and the unknown label `"teleporting"`. -/
theorem C2_start_operation_at_nest_witness :
    (BravoDeckState.init 9 0).start_operation_at_nest 3 "teleporting" none 5
      = (false, BravoDeckState.init 9 0) ∧
    ((BravoDeckState.init 9 0).start_operation_at_nest 3 "Aspirating" none 5).1 = true ∧
    ((BravoDeckState.init 9 0).start_operation_at_nest 3 "Aspirating" none 5).2.global_operation_count
      = (BravoDeckState.init 9 0).global_operation_count + 1 := by
  have h := C2_start_operation_at_nest (BravoDeckState.init 9 0) 3 "teleporting" none 5
    (Nest.init 3) (by decide)
  have h2 := C2_start_operation_at_nest (BravoDeckState.init 9 0) 3 "Aspirating" none 5
    (Nest.init 3) (by decide)
  have hval := (h2.2 OperationStatus.aspirating (by decide))
  exact ⟨h.1 (by decide), hval.1, hval.2.1⟩

/-! ### C7: labware round-trip, case-insensitive parsing, unknown fallback -/

/-- C7: at a valid nest, `set_labware_at_nest` with `"microplate_96"`
returns `true` and the nest then reads back `microplate_96` with the
given name; parsing depends only on the lowercased label; any label
that fails to parse installs `LabwareType.unknown` and still returns
`true`. -/
theorem C7_set_labware_at_nest (s : BravoDeckState) (nest_id : Int) (nest : Nest) (now : Nat)
    (hget : s.get_nest nest_id = some nest) :
    ((s.set_labware_at_nest nest_id "microplate_96" (some "X") now).1 = true ∧
      ∃ nest2,
        (s.set_labware_at_nest nest_id "microplate_96" (some "X") now).2.get_nest nest_id
          = some nest2 ∧
        nest2.labware_type = LabwareType.microplate_96 ∧
        nest2.labware_name = some "X") ∧
    (∀ l1 l2 : String, ∀ nm now2, pyLower l1 = pyLower l2 →
      s.set_labware_at_nest nest_id l1 nm now2 = s.set_labware_at_nest nest_id l2 nm now2) ∧
    (∀ lbl : String, ∀ nm now2, LabwareType.ofValue (pyLower lbl) = none →
      (s.set_labware_at_nest nest_id lbl nm now2).1 = true ∧
      ∃ nest3,
        (s.set_labware_at_nest nest_id lbl nm now2).2.get_nest nest_id = some nest3 ∧
        nest3.labware_type = LabwareType.unknown) := by
  refine ⟨?_, ?_, ?_⟩
  · have hparse : (LabwareType.ofValue (pyLower "microplate_96")).getD LabwareType.unknown
        = LabwareType.microplate_96 := by decide
    have h2 : s.set_labware_at_nest nest_id "microplate_96" (some "X") now
        = (true,
            { s with
              nests := modifyNest s.nests nest_id
                (fun n => n.set_labware LabwareType.microplate_96 (some "X") now) }) := by
      simp [BravoDeckState.set_labware_at_nest, hget, hparse]
    rw [h2]
    refine ⟨rfl, nest.set_labware LabwareType.microplate_96 (some "X") now, ?_, rfl, rfl⟩
    dsimp only
    refine Eq.trans (get_nest_after_modify s _ nest_id
      (fun n => n.set_labware LabwareType.microplate_96 (some "X") now)
      (fun n => rfl) rfl rfl) ?_
    rw [hget]
    rfl
  · intro l1 l2 nm now2 hl
    simp [BravoDeckState.set_labware_at_nest, hl]
  · intro lbl nm now2 hlbl
    have h3 : s.set_labware_at_nest nest_id lbl nm now2
        = (true,
            { s with
              nests := modifyNest s.nests nest_id
                (fun n => n.set_labware LabwareType.unknown nm now2) }) := by
      simp [BravoDeckState.set_labware_at_nest, hget, hlbl]
    rw [h3]
    refine ⟨rfl, nest.set_labware LabwareType.unknown nm now2, ?_, rfl⟩
    dsimp only
    refine Eq.trans (get_nest_after_modify s _ nest_id
      (fun n => n.set_labware LabwareType.unknown nm now2)
      (fun n => rfl) rfl rfl) ?_
    rw [hget]
    rfl

/-- Witness for C7 at nest 3 of a fresh 9-nest deck, using the
mixed-case label `"MicroPlate_96"` and the unknown label `"hovercraft"`. -/
theorem C7_set_labware_at_nest_witness :
    ((BravoDeckState.init 9 0).set_labware_at_nest 3 "microplate_96" (some "X") 5).1 = true ∧
    (BravoDeckState.init 9 0).set_labware_at_nest 3 "MicroPlate_96" (some "Y") 6
      = (BravoDeckState.init 9 0).set_labware_at_nest 3 "microplate_96" (some "Y") 6 ∧
    ((BravoDeckState.init 9 0).set_labware_at_nest 3 "hovercraft" none 7).1 = true := by
  have h := C7_set_labware_at_nest (BravoDeckState.init 9 0) 3 (Nest.init 3) 5 (by decide)
  exact ⟨h.1.1, h.2.1 "MicroPlate_96" "microplate_96" (some "Y") 6 (by decide),
    (h.2.2 "hovercraft" none 7 (by decide)).1⟩

/-! ### C8: tips_off keeps the stored tip_type -/

/-- C8: at a valid nest, `update_tips_at_nest` with `tips_on = false`
and no `tip_type` returns `true`, clears `tips_loaded`, records
`"tips_off"` as the last tip operation, and leaves the stored
`tip_type` exactly as it was. -/
theorem C8_update_tips_at_nest (s : BravoDeckState) (nest_id : Int) (nest : Nest) (now : Nat)
    (hget : s.get_nest nest_id = some nest) :
    (s.update_tips_at_nest nest_id false none now).1 = true ∧
    ∃ nest2,
      (s.update_tips_at_nest nest_id false none now).2.get_nest nest_id = some nest2 ∧
      nest2.tip_info.tip_type = nest.tip_info.tip_type ∧
      nest2.tip_info.tips_loaded = false ∧
      nest2.tip_info.last_tip_operation = some "tips_off" := by
  have h2 : s.update_tips_at_nest nest_id false none now
      = (true,
          { s with
            nests := modifyNest s.nests nest_id (fun n => n.update_tips false none 0 now) }) := by
    simp [BravoDeckState.update_tips_at_nest, hget]
  rw [h2]
  refine ⟨rfl, nest.update_tips false none 0 now, ?_, rfl, rfl, rfl⟩
  dsimp only
  refine Eq.trans (get_nest_after_modify s _ nest_id
    (fun n => n.update_tips false none 0 now) (fun n => rfl) rfl rfl) ?_
  rw [hget]
  rfl

/-- Witness for C8: load `"p200"` tips at nest 1, then unload without a
`tip_type`; the stored type survives. -/
theorem C8_update_tips_at_nest_witness :
    ((((BravoDeckState.init 2 0).update_tips_at_nest 1 true (some "p200") 3).2).update_tips_at_nest
        1 false none 4).1 = true ∧
    ∃ nest2,
      ((((BravoDeckState.init 2 0).update_tips_at_nest 1 true (some "p200") 3).2).update_tips_at_nest
          1 false none 4).2.get_nest 1 = some nest2 ∧
      nest2.tip_info.tip_type = ((Nest.init 1).update_tips true (some "p200") 0 3).tip_info.tip_type ∧
      nest2.tip_info.tips_loaded = false ∧
      nest2.tip_info.last_tip_operation = some "tips_off" :=
  C8_update_tips_at_nest (((BravoDeckState.init 2 0).update_tips_at_nest 1 true (some "p200") 3).2)
    1 ((Nest.init 1).update_tips true (some "p200") 0 3) 4 (by decide)

/-! ### C9: the idle status is startable and counted -/

/-- C9: `"idle"` parses as a valid `OperationStatus`, so
`start_operation_at_nest` with it succeeds at any valid nest: it
returns `true`, bumps `global_operation_count` by one, and leaves the
nest idle but with a recorded `start_time` and progress `0`. -/
theorem C9_start_idle_operation (s : BravoDeckState) (nest_id : Int) (nest : Nest)
    (details : Option Dict) (now : Nat)
    (hget : s.get_nest nest_id = some nest) :
    (s.start_operation_at_nest nest_id "idle" details now).1 = true ∧
    (s.start_operation_at_nest nest_id "idle" details now).2.global_operation_count
      = s.global_operation_count + 1 ∧
    ∃ nest2,
      (s.start_operation_at_nest nest_id "idle" details now).2.get_nest nest_id = some nest2 ∧
      nest2.operation_info.status = OperationStatus.idle ∧
      nest2.operation_info.start_time = some now ∧
      nest2.operation_info.progress = 0 := by
  have hparse : OperationStatus.ofValue (pyLower "idle") = some OperationStatus.idle := by decide
  have h2 : s.start_operation_at_nest nest_id "idle" details now
      = (true,
          { s with
            nests := modifyNest s.nests nest_id
              (fun n => n.start_operation OperationStatus.idle (some (details.getD [])) now)
            global_operation_count := s.global_operation_count + 1 }) := by
    simp [BravoDeckState.start_operation_at_nest, hget, hparse]
  rw [h2]
  refine ⟨rfl, rfl,
    nest.start_operation OperationStatus.idle (some (details.getD [])) now, ?_, rfl, rfl, rfl⟩
  dsimp only
  refine Eq.trans (get_nest_after_modify s _ nest_id
    (fun n => n.start_operation OperationStatus.idle (some (details.getD [])) now)
    (fun n => rfl) rfl rfl) ?_
  rw [hget]
  rfl

/-- Witness for C9 at nest 2 of a fresh 9-nest deck. -/
theorem C9_start_idle_operation_witness :
    ((BravoDeckState.init 9 0).start_operation_at_nest 2 "idle" none 5).1 = true ∧
    ((BravoDeckState.init 9 0).start_operation_at_nest 2 "idle" none 5).2.global_operation_count
      = (BravoDeckState.init 9 0).global_operation_count + 1 ∧
    ∃ nest2,
      ((BravoDeckState.init 9 0).start_operation_at_nest 2 "idle" none 5).2.get_nest 2 = some nest2 ∧
      nest2.operation_info.status = OperationStatus.idle ∧
      nest2.operation_info.start_time = some 5 ∧
      nest2.operation_info.progress = 0 :=
  C9_start_idle_operation (BravoDeckState.init 9 0) 2 (Nest.init 2) none 5 (by decide)

/-! ### C6: reset_all_nests restores the baseline -/

/-- C6: after `reset_all_nests`, every nest is empty with no tips and
zero current volume and an idle status, the deck counters are zeroed,
`last_error` is cleared, and `initialization_time` is untouched. -/
theorem C6_reset_all_nests (s : BravoDeckState) (now : Nat) (nest : Nest)
    (hmem : nest ∈ (s.reset_all_nests now).nests) :
    nest.labware_type = LabwareType.empty ∧
    nest.tip_info.tips_loaded = false ∧
    nest.volume_info.current_volume = 0 ∧
    nest.operation_info.status = OperationStatus.idle ∧
    (s.reset_all_nests now).global_operation_count = 0 ∧
    (s.reset_all_nests now).error_count = 0 ∧
    (s.reset_all_nests now).last_error = none ∧
    (s.reset_all_nests now).initialization_time = s.initialization_time := by
  simp only [BravoDeckState.reset_all_nests, List.mem_map] at hmem
  obtain ⟨m, hm, rfl⟩ := hmem
  exact ⟨rfl, rfl, rfl, rfl, rfl, rfl, rfl, rfl⟩

/-- Witness for C6 on a 2-nest deck reset at time 7, checked at the
first nest. -/
theorem C6_reset_all_nests_witness :
    ((Nest.init 1).reset_nest 7).labware_type = LabwareType.empty ∧
    ((Nest.init 1).reset_nest 7).tip_info.tips_loaded = false ∧
    ((Nest.init 1).reset_nest 7).volume_info.current_volume = 0 ∧
    ((Nest.init 1).reset_nest 7).operation_info.status = OperationStatus.idle ∧
    ((BravoDeckState.init 2 0).reset_all_nests 7).global_operation_count = 0 ∧
    ((BravoDeckState.init 2 0).reset_all_nests 7).error_count = 0 ∧
    ((BravoDeckState.init 2 0).reset_all_nests 7).last_error = none ∧
    ((BravoDeckState.init 2 0).reset_all_nests 7).initialization_time
      = (BravoDeckState.init 2 0).initialization_time :=
  C6_reset_all_nests (BravoDeckState.init 2 0) 7 ((Nest.init 1).reset_nest 7) (by decide)

/-! ### C10: reset leaves progress at 100, not 0 -/

/-- C10: `reset_nest` routes through `complete_operation`, so the
post-reset `progress` is `100`, not `0`; the same holds for every nest
after `reset_all_nests`. -/
theorem C10_reset_progress_is_100 (n : Nest) (now : Nat) (s : BravoDeckState) (now2 : Nat)
    (nest : Nest) (hmem : nest ∈ (s.reset_all_nests now2).nests) :
    (n.reset_nest now).operation_info.progress = 100 ∧
    (n.reset_nest now).operation_info.progress ≠ 0 ∧
    nest.operation_info.progress = 100 := by
  simp only [BravoDeckState.reset_all_nests, List.mem_map] at hmem
  obtain ⟨m, hm, rfl⟩ := hmem
  exact ⟨rfl, by norm_num [Nest.reset_nest, OperationInfo.complete_operation], rfl⟩

/-- Witness for C10 on a 2-nest deck reset at time 7. -/
theorem C10_reset_progress_is_100_witness :
    ((Nest.init 1).reset_nest 7).operation_info.progress = 100 ∧
    ((Nest.init 1).reset_nest 7).operation_info.progress ≠ 0 ∧
    ((Nest.init 2).reset_nest 7).operation_info.progress = 100 :=
  C10_reset_progress_is_100 (Nest.init 1) 7 (BravoDeckState.init 2 0) 7
    ((Nest.init 2).reset_nest 7) (by decide)

/-! ### C1: the start_time / status consistency invariant -/

/-- The spec's OperationInfo invariant: `start_time` is present iff the
status is not idle. -/
def Nest.start_time_consistent (n : Nest) : Prop :=
  n.operation_info.start_time.isSome ↔ n.operation_info.status ≠ OperationStatus.idle

instance (n : Nest) : Decidable n.start_time_consistent := by
  unfold Nest.start_time_consistent
  infer_instance

/-- The invariant asserted for every nest of the deck. -/
def BravoDeckState.start_time_consistent (s : BravoDeckState) : Prop :=
  ∀ n ∈ s.nests, n.start_time_consistent

instance (s : BravoDeckState) : Decidable s.start_time_consistent :=
  List.decidableBAll _ s.nests

/-- The public calls that do preserve the invariant: everything except
`log_error` carrying a nest id (which forces `error` status with no
`start_time`) and `start_operation_at_nest` with the label `"idle"`
(which records a `start_time` while the status is idle). -/
def DeckOp.startTimeSafe : DeckOp → Bool
  | .start_operation_at_nest _ operation _ _ => pyLower operation != "idle"
  | .log_error _ nest_id => nest_id.isNone
  | _ => true

lemma ofValue_eq_idle (x : String)
    (hx : OperationStatus.ofValue x = some OperationStatus.idle) : x = "idle" := by
  unfold OperationStatus.ofValue at hx
  split_ifs at hx <;> simp_all

lemma start_time_consistent_modifyNest (nests : List Nest) (id : Int) (f : Nest → Nest)
    (hall : ∀ n ∈ nests, n.start_time_consistent)
    (hf : ∀ n ∈ nests, n.start_time_consistent → (f n).start_time_consistent) :
    ∀ n ∈ modifyNest nests id f, n.start_time_consistent := by
  intro n hn
  simp only [modifyNest, List.mem_map] at hn
  obtain ⟨m, hm, rfl⟩ := hn
  by_cases h : m.nest_id = id
  · simpa [h] using hf m hm (hall m hm)
  · simpa [h] using hall m hm

lemma start_time_consistent_apply (s : BravoDeckState) (op : DeckOp)
    (hs : s.start_time_consistent) (hop : op.startTimeSafe = true) :
    (DeckOp.apply s op).start_time_consistent := by
  cases op with
  | set_labware_at_nest nid lt nm now =>
    show ((s.set_labware_at_nest nid lt nm now).2).start_time_consistent
    unfold BravoDeckState.set_labware_at_nest
    cases hg : s.get_nest nid with
    | none => simpa [hg] using hs
    | some m =>
      simp only [hg]
      exact start_time_consistent_modifyNest s.nests nid _ hs (fun n _ h => h)
  | start_operation_at_nest nid operation details now =>
    show ((s.start_operation_at_nest nid operation details now).2).start_time_consistent
    unfold BravoDeckState.start_operation_at_nest
    cases hg : s.get_nest nid with
    | none => simpa [hg] using hs
    | some m =>
      cases hp : OperationStatus.ofValue (pyLower operation) with
      | none => simpa [hg, hp] using hs
      | some st =>
        have hne : st ≠ OperationStatus.idle := by
          intro hbad
          have : pyLower operation = "idle" := ofValue_eq_idle _ (hbad ▸ hp)
          simp only [DeckOp.startTimeSafe, bne_iff_ne, ne_eq] at hop
          exact hop this
        simp only [hg, hp]
        refine start_time_consistent_modifyNest s.nests nid _ hs (fun n _ _ => ?_)
        simpa [Nest.start_time_consistent, Nest.start_operation,
          OperationInfo.start_operation] using hne
  | complete_operation_at_nest nid now =>
    show ((s.complete_operation_at_nest nid now).2).start_time_consistent
    unfold BravoDeckState.complete_operation_at_nest
    cases hg : s.get_nest nid with
    | none => simpa [hg] using hs
    | some m =>
      simp only [hg]
      refine start_time_consistent_modifyNest s.nests nid _ hs (fun n _ _ => ?_)
      simp [Nest.start_time_consistent, Nest.complete_operation,
        OperationInfo.complete_operation]
  | update_volume_at_nest nid a d now =>
    show ((s.update_volume_at_nest nid a d now).2).start_time_consistent
    unfold BravoDeckState.update_volume_at_nest
    cases hg : s.get_nest nid with
    | none => simpa [hg] using hs
    | some m =>
      simp only [hg]
      exact start_time_consistent_modifyNest s.nests nid _ hs (fun n _ h => h)
  | update_tips_at_nest nid t tt now =>
    show ((s.update_tips_at_nest nid t tt now).2).start_time_consistent
    unfold BravoDeckState.update_tips_at_nest
    cases hg : s.get_nest nid with
    | none => simpa [hg] using hs
    | some m =>
      simp only [hg]
      exact start_time_consistent_modifyNest s.nests nid _ hs (fun n _ h => h)
  | reset_all_nests now =>
    show (s.reset_all_nests now).start_time_consistent
    intro n hn
    simp only [BravoDeckState.reset_all_nests, List.mem_map] at hn
    obtain ⟨m, hm, rfl⟩ := hn
    simp [Nest.start_time_consistent, Nest.reset_nest, OperationInfo.complete_operation]
  | log_error msg nid =>
    cases nid with
    | none => exact hs
    | some k => simp [DeckOp.startTimeSafe] at hop
  | get_nest nid => exact hs
  | get_active_operations => exact hs
  | get_nests_with_labware => exact hs
  | get_nests_with_tips => exact hs
  | get_deck_summary => exact hs
  | find_empty_nests => exact hs
  | find_nests_by_labware_type lbl => exact hs
  | export_state_to_dict now => exact hs

lemma start_time_consistent_init (num_nests now : Nat) :
    (BravoDeckState.init num_nests now).start_time_consistent := by
  intro m hm
  simp only [BravoDeckState.init, List.mem_map] at hm
  obtain ⟨i, hi, rfl⟩ := hm
  simp [Nest.init, Nest.start_time_consistent, OperationInfo.init]

lemma start_time_consistent_runOps (ops : List DeckOp) :
    ∀ s : BravoDeckState, s.start_time_consistent →
      (∀ op ∈ ops, op.startTimeSafe = true) →
      (runOps s ops).start_time_consistent := by
  induction ops with
  | nil => intro s hs _; exact hs
  | cons op rest ih =>
    intro s hs hops
    have h1 := start_time_consistent_apply s op hs (hops op (by simp))
    exact ih _ h1 (fun o ho => hops o (by simp [ho]))

/-- C1 counterexample: the claim fails as stated.  From the initial
9-nest deck, the single public call `log_error("hardware fault", 1)`
pins nest 1 to `error` status without recording a `start_time`, so the
"start_time present iff status not idle" invariant is already broken
after one operation. -/
theorem C1_start_time_iff_counterexample :
    ¬ BravoDeckState.start_time_consistent
        ((BravoDeckState.init 9 0).log_error "hardware fault" (some 1)) := by
  decide

/-- C1 amended: the invariant holds after every sequence of public
calls that avoids the two offending forms — `log_error` with a nest id
(which sets `error` status with no `start_time`) and
`start_operation_at_nest` with the label `"idle"` (which records a
`start_time` while idle). -/
theorem C1_start_time_iff_amended (num_nests now0 : Nat) (ops : List DeckOp)
    (hops : ∀ op ∈ ops, op.startTimeSafe = true) :
    (runOps (BravoDeckState.init num_nests now0) ops).start_time_consistent :=
  start_time_consistent_runOps ops _ (start_time_consistent_init num_nests now0) hops

/-- Witness for the amended C1 on a mixed sequence of safe calls. -/
theorem C1_start_time_iff_amended_witness :
    (runOps (BravoDeckState.init 2 0)
      [DeckOp.start_operation_at_nest 1 "aspirating" none 3,
       DeckOp.update_volume_at_nest 1 100 0 4,
       DeckOp.complete_operation_at_nest 1 5,
       DeckOp.log_error "transient glitch" none,
       DeckOp.get_deck_summary,
       DeckOp.set_labware_at_nest 2 "reservoir" (some "buffer") 6,
       DeckOp.reset_all_nests 7]).start_time_consistent :=
  C1_start_time_iff_amended 2 0 _ (by decide)

/-! ### C5: get_active_operations is an ordered snapshot -/

/-- Reachability invariant: the nest list carries exactly the ids
`1, 2, ..., num_nests` in order (dictionary insertion order). -/
def nest_ids_canonical (s : BravoDeckState) : Prop :=
  s.nests.map (fun n => n.nest_id)
    = (List.range s.num_nests).map (fun i => Int.ofNat i + 1)

lemma nest_ids_canonical_init (num_nests now : Nat) :
    nest_ids_canonical (BravoDeckState.init num_nests now) := by
  unfold nest_ids_canonical BravoDeckState.init
  simp only [List.map_map]
  exact List.map_congr_left (fun i _ => rfl)

lemma nest_ids_canonical_set (s s2 : BravoDeckState) (nid : Int) (f : Nest → Nest)
    (hs : nest_ids_canonical s)
    (hnum : s2.num_nests = s.num_nests)
    (hnests : s2.nests = modifyNest s.nests nid f)
    (hf : ∀ n, (f n).nest_id = n.nest_id) :
    nest_ids_canonical s2 := by
  unfold nest_ids_canonical at hs ⊢
  rw [hnum, hnests, map_nest_id_modifyNest _ _ _ hf]
  exact hs

lemma nest_ids_canonical_map (s s2 : BravoDeckState) (f : Nest → Nest)
    (hs : nest_ids_canonical s)
    (hnum : s2.num_nests = s.num_nests)
    (hnests : s2.nests = s.nests.map f)
    (hf : ∀ n, (f n).nest_id = n.nest_id) :
    nest_ids_canonical s2 := by
  unfold nest_ids_canonical at hs ⊢
  rw [hnum, hnests, List.map_map,
    show List.map ((fun n : Nest => n.nest_id) ∘ f) s.nests
        = List.map (fun n : Nest => n.nest_id) s.nests
      from List.map_congr_left (fun n _ => hf n)]
  exact hs

lemma nest_ids_canonical_apply (s : BravoDeckState) (op : DeckOp)
    (hs : nest_ids_canonical s) : nest_ids_canonical (DeckOp.apply s op) := by
  cases op with
  | set_labware_at_nest nid lt nm now =>
    show nest_ids_canonical (s.set_labware_at_nest nid lt nm now).2
    unfold BravoDeckState.set_labware_at_nest
    cases hg : s.get_nest nid with
    | none => simpa [hg] using hs
    | some m =>
      simp only [hg]
      exact nest_ids_canonical_set s _ nid _ hs rfl rfl (fun n => rfl)
  | start_operation_at_nest nid operation details now =>
    show nest_ids_canonical (s.start_operation_at_nest nid operation details now).2
    unfold BravoDeckState.start_operation_at_nest
    cases hg : s.get_nest nid with
    | none => simpa [hg] using hs
    | some m =>
      cases hp : OperationStatus.ofValue (pyLower operation) with
      | none => simpa [hg, hp] using hs
      | some st =>
        simp only [hg, hp]
        exact nest_ids_canonical_set s _ nid _ hs rfl rfl (fun n => rfl)
  | complete_operation_at_nest nid now =>
    show nest_ids_canonical (s.complete_operation_at_nest nid now).2
    unfold BravoDeckState.complete_operation_at_nest
    cases hg : s.get_nest nid with
    | none => simpa [hg] using hs
    | some m =>
      simp only [hg]
      exact nest_ids_canonical_set s _ nid _ hs rfl rfl (fun n => rfl)
  | update_volume_at_nest nid a d now =>
    show nest_ids_canonical (s.update_volume_at_nest nid a d now).2
    unfold BravoDeckState.update_volume_at_nest
    cases hg : s.get_nest nid with
    | none => simpa [hg] using hs
    | some m =>
      simp only [hg]
      exact nest_ids_canonical_set s _ nid _ hs rfl rfl (fun n => rfl)
  | update_tips_at_nest nid t tt now =>
    show nest_ids_canonical (s.update_tips_at_nest nid t tt now).2
    unfold BravoDeckState.update_tips_at_nest
    cases hg : s.get_nest nid with
    | none => simpa [hg] using hs
    | some m =>
      simp only [hg]
      exact nest_ids_canonical_set s _ nid _ hs rfl rfl (fun n => rfl)
  | reset_all_nests now =>
    show nest_ids_canonical (s.reset_all_nests now)
    exact nest_ids_canonical_map s _ (fun n => n.reset_nest now) hs rfl rfl (fun n => rfl)
  | log_error msg nid =>
    show nest_ids_canonical (s.log_error msg nid)
    unfold BravoDeckState.log_error
    cases nid with
    | none => exact hs
    | some k =>
      dsimp only
      split
      · exact nest_ids_canonical_set s _ k _ hs rfl rfl (fun n => rfl)
      · exact hs
  | get_nest nid => exact hs
  | get_active_operations => exact hs
  | get_nests_with_labware => exact hs
  | get_nests_with_tips => exact hs
  | get_deck_summary => exact hs
  | find_empty_nests => exact hs
  | find_nests_by_labware_type lbl => exact hs
  | export_state_to_dict now => exact hs

lemma nest_ids_canonical_runOps (ops : List DeckOp) :
    ∀ s : BravoDeckState, nest_ids_canonical s → nest_ids_canonical (runOps s ops) := by
  induction ops with
  | nil => intro s hs; exact hs
  | cons op rest ih => intro s hs; exact ih _ (nest_ids_canonical_apply s op hs)

lemma mem_get_active_operations (s : BravoDeckState) (r : ActiveOperationRecord) :
    r ∈ s.get_active_operations ↔
      ∃ nest, nest ∈ s.nests ∧ nest.operation_info.status ≠ OperationStatus.idle ∧
        r = ⟨nest.nest_id, nest.operation_info.status.value,
             nest.operation_info.operation_details, nest.operation_info.progress,
             nest.operation_info.start_time⟩ := by
  unfold BravoDeckState.get_active_operations
  rw [List.mem_filterMap]
  constructor
  · rintro ⟨n, hn, hf⟩
    by_cases h : n.operation_info.status = OperationStatus.idle
    · simp [h] at hf
    · simp only [ne_eq, h, not_false_eq_true, if_true, Option.some.injEq] at hf
      exact ⟨n, hn, h, hf.symm⟩
  · rintro ⟨n, hn, h, rfl⟩
    exact ⟨n, hn, by simp [h]⟩

lemma pairwise_filterMap_lift {α β : Type} (R : α → α → Prop) (S : β → β → Prop)
    (f : α → Option β)
    (hf : ∀ a b c d, R a b → f a = some c → f b = some d → S c d) :
    ∀ l : List α, l.Pairwise R → (l.filterMap f).Pairwise S := by
  intro l hl
  induction hl with
  | nil => simp
  | cons hhead htail ih =>
    rename_i a l2
    cases hfa : f a with
    | none => simpa [List.filterMap_cons, hfa] using ih
    | some c =>
      simp only [List.filterMap_cons, hfa]
      refine List.Pairwise.cons ?_ ih
      intro d hd
      obtain ⟨b, hb, hfb⟩ := List.mem_filterMap.mp hd
      exact hf a b c d (hhead b hb) hfa hfb

lemma pairwise_nest_ids (s : BravoDeckState) (hs : nest_ids_canonical s) :
    s.nests.Pairwise (fun a b => a.nest_id < b.nest_id) := by
  have h1 : (s.nests.map (fun n => n.nest_id)).Pairwise (· < ·) := by
    rw [hs]
    refine List.Pairwise.map _ (fun i j hij => ?_) (List.pairwise_lt_range s.num_nests)
    exact Int.add_lt_add_right (Int.ofNat_lt.mpr hij) 1
  exact List.pairwise_map.mp h1

lemma get_active_operations_pairwise (s : BravoDeckState) (hs : nest_ids_canonical s) :
    s.get_active_operations.Pairwise (fun a b => a.nest_id < b.nest_id) := by
  unfold BravoDeckState.get_active_operations
  refine pairwise_filterMap_lift (fun a b : Nest => a.nest_id < b.nest_id) _ _
    (fun a b c d hab hfa hfb => ?_) s.nests (pairwise_nest_ids s hs)
  have hca : c.nest_id = a.nest_id := by
    by_cases h : a.operation_info.status = OperationStatus.idle
    · simp [h] at hfa
    · simp only [ne_eq, h, not_false_eq_true, if_true, Option.some.injEq] at hfa
      rw [← hfa]
  have hdb : d.nest_id = b.nest_id := by
    by_cases h : b.operation_info.status = OperationStatus.idle
    · simp [h] at hfb
    · simp only [ne_eq, h, not_false_eq_true, if_true, Option.some.injEq] at hfb
      rw [← hfb]
  rw [hca, hdb]
  exact hab

/-- C5: in every reachable deck state, `get_active_operations` contains
exactly the records of the nests with non-idle status (each carrying
that nest's id, status value, details, progress and start time), the
records are strictly ordered by ascending nest id, and
`get_deck_summary` reports exactly its length as `active_operations`. -/
theorem C5_get_active_operations (num_nests now0 : Nat) (ops : List DeckOp) :
    (∀ r, r ∈ (runOps (BravoDeckState.init num_nests now0) ops).get_active_operations ↔
      ∃ nest, nest ∈ (runOps (BravoDeckState.init num_nests now0) ops).nests ∧
        nest.operation_info.status ≠ OperationStatus.idle ∧
        r = ⟨nest.nest_id, nest.operation_info.status.value,
             nest.operation_info.operation_details, nest.operation_info.progress,
             nest.operation_info.start_time⟩) ∧
    (runOps (BravoDeckState.init num_nests now0) ops).get_active_operations.Pairwise
      (fun a b => a.nest_id < b.nest_id) ∧
    (runOps (BravoDeckState.init num_nests now0) ops).get_deck_summary.active_operations
      = (runOps (BravoDeckState.init num_nests now0) ops).get_active_operations.length :=
  ⟨fun r => mem_get_active_operations _ r,
    get_active_operations_pairwise _
      (nest_ids_canonical_runOps ops _ (nest_ids_canonical_init num_nests now0)),
    rfl⟩
